import Mathlib

/-!
Shallow embedding of the session automation controller of the
FB-Automation-Playwright repository, together with proofs about its
behaviour.  The embedding covers:

* `src/utils/captcha.js` — the captcha/checkpoint detection engine
  (`detectCaptcha`), modelled over an abstract page state whose individual
  queries may fault;
* `src/utils/human.js` — the human-pacing `humanType` helper;
* `src/controllers/facebookController.js` — the `login` retry state machine
  (attempt loop, backoff, outcome classification via `waitForLoginOutcome`),
  the `sendMessage` pipeline and the active `sendFriendRequest` workflow.

Machine strings are modelled as Lean `String`s; JS `undefined`/`null` object
fields are modelled as `Option` values (`none` = field absent or null).
Screenshot capture is an external fire-and-forget collaborator; its result is
threaded through the model as an input (`Option String` reference) where the
code embeds it in a returned payload.
-/

/-! ## String helpers mirroring the JS string operations used by the source -/

/-- Substring test on character lists: `listContainsSub pat s` is true iff
`pat` occurs contiguously inside `s` (JS `String.prototype.includes`). -/
def listContainsSub (pat : List Char) : List Char → Bool
  | [] => pat.isEmpty
  | c :: cs => pat.isPrefixOf (c :: cs) || listContainsSub pat cs

/-- JS `s.includes(pat)`. -/
def containsSub (s pat : String) : Bool :=
  listContainsSub pat.data s.data

/-- JS `s.toLowerCase()` (ASCII range; the phrase lists used by the source are
lowercase ASCII or caseless Farsi, for which this agrees with JS). -/
def strLower (s : String) : String :=
  ⟨s.data.map Char.toLower⟩

/-- JS `s.slice(0, n)` for the non-negative bounds used by the source. -/
def sliceTo (n : Nat) (s : String) : String :=
  ⟨s.data.take n⟩

/-- Collapse every run of whitespace to a single space
(JS `replace(/\s+/g, " ")`); the `Bool` flag records whether the previous
character was whitespace. -/
def collapseWs : Bool → List Char → List Char
  | _, [] => []
  | prevWs, c :: cs =>
    if c.isWhitespace then
      if prevWs then collapseWs true cs
      else ' ' :: collapseWs true cs
    else c :: collapseWs false cs

/-- JS `s.trim()`: drop leading and trailing whitespace. -/
def trimChars (l : List Char) : List Char :=
  ((l.dropWhile Char.isWhitespace).reverse.dropWhile Char.isWhitespace).reverse

/-- `normalizeTxt` from `src/utils/captcha.js`:
lowercase, collapse whitespace runs, trim. -/
def normalizeTxt (s : String) : String :=
  ⟨trimChars (collapseWs false (strLower s).data)⟩

/-! ## CaptchaResult and the abstract page state seen by `detectCaptcha` -/

/-- Result object of `detectCaptcha`.  The source object also carries a
`screenshot` reference produced by the external capture collaborator, which we
do not model; `matchv` renders the source key `match` (a Lean keyword).
`none` models an absent (or `null`) field. -/
structure CaptchaResult where
  detected : Bool
  method : Option String
  matchv : Option String
  snippet : Option String
deriving DecidableEq, Repr

/-- The not-detected result `{ detected: false }` returned by the source both
on fall-through and from the top-level catch. -/
def notDetected : CaptchaResult := ⟨false, none, none, none⟩

/-- One embedded frame as seen by `detectCaptcha`: `furl` is `f.url()` and
`ftext` is the frame-body `innerText` evaluation, which throws on cross-origin
frames (`Except.error`). -/
structure Frame where
  furl : Except Unit String
  ftext : Except Unit String

/-- Abstract page state for `detectCaptcha`.  Every query the source performs
is a field; `Except.error` models the query throwing. `selFound sel` models
`page.$(sel) !== null` and `selText sel` the inner-text evaluation of the
matched element. -/
structure CPage where
  url : Except Unit String
  frames : Except Unit (List Frame)
  selFound : String → Except Unit Bool
  selText : String → Except Unit String
  bodyText : Except Unit String

/-- `SELECTOR_CANDIDATES` from `src/utils/captcha.js`, in source order. -/
def SELECTOR_CANDIDATES : List String :=
  ["iframe[src*=\x27recaptcha\x27]",
   "iframe[src*=\x27hcaptcha\x27]",
   "iframe[src*=\x27captcha\x27]",
   "div[id*=\x27captcha\x27]",
   "div[class*=\x27captcha\x27]",
   "div[data-testid*=\x27captcha\x27]",
   "form[action*=\x27checkpoint\x27]",
   "a[href*=\x27/checkpoint\x27]",
   "a[href*=\x27checkpoint\x27]"]

/-- `TEXT_PATTERNS_EN` from `src/utils/captcha.js`. -/
def TEXT_PATTERNS_EN : List String :=
  ["complete a challenge to verify you’re a human",
   "complete a challenge",
   "verify you’re a human",
   "verify you are a human",
   "solve a puzzle",
   "try audio challenge",
   "security check",
   "confirm your identity",
   "prove you are human",
   "type the characters you see",
   "enter the characters",
   "we just need to make sure there’s a real human",
   "to continue, verify",
   "prove it\x27s you",
   "we detected unusual activity"]

/-- `TEXT_PATTERNS_FA` from `src/utils/captcha.js`. -/
def TEXT_PATTERNS_FA : List String :=
  ["تأیید هویت",
   "تأیید کنید",
   "برای ادامه",
   "ما باید مطمئن شویم",
   "اثبات کنید که انسان هستید",
   "نوع کاراکترها را وارد کنید",
   "تکمیل آزمون",
   "تأیید شما",
   "بررسی امنیتی"]

/-- URL heuristic
`/checkpoint|security|login_check|login\/checkpoint|confirm/i.test(url)`
(the alternation makes the fourth branch redundant but it is kept). -/
def urlPattern (u : String) : Bool :=
  let l := strLower u
  containsSub l "checkpoint" || containsSub l "security" ||
  containsSub l "login_check" || containsSub l "login/checkpoint" ||
  containsSub l "confirm"

/-- `FRAME_PATTERNS.some(rx => rx.test(fu))` for
`[/recaptcha/i, /hcaptcha/i, /captcha/i]`. -/
def framePattern (fu : String) : Bool :=
  let l := strLower fu
  containsSub l "recaptcha" || containsSub l "hcaptcha" || containsSub l "captcha"

/-- Phrase-list check used by the frame-text and selector-text tiers:
some pattern from either language list, normalized, occurs in `n`. -/
def textMatch (n : String) : Bool :=
  TEXT_PATTERNS_EN.any (fun p => containsSub n (normalizeTxt p)) ||
  TEXT_PATTERNS_FA.any (fun p => containsSub n (normalizeTxt p))

/-- `/iframe/i.test(sel)` from the selector tier. -/
def isIframeSel (sel : String) : Bool :=
  containsSub (strLower sel) "iframe"

/-- `page.url()` with its individual catch: a throw yields `""`. -/
def urlOf (p : CPage) : String :=
  match p.url with
  | .ok u => u
  | .error _ => ""

/-- Tier 1: URL heuristic.  `some r` models an early `return r`. -/
def urlTier (p : CPage) : Option CaptchaResult :=
  let u := urlOf p
  if u ≠ "" && urlPattern u then
    some ⟨true, some "url", some u, none⟩
  else none

/-- Tiers 2–3: the frame loop.  For each frame the address check runs first,
then (inside its own try) the readable-text check.  A throw from `f.url()`
escapes to the catch wrapping the whole loop, which falls through to the
selector tier — modelled by returning `none`.  A throw from the text
evaluation only skips that frame's text check. -/
def frameScan : List Frame → Option CaptchaResult
  | [] => none
  | f :: rest =>
    match f.furl with
    | .error _ => none
    | .ok fu =>
      if framePattern fu then
        some ⟨true, some "frame_url", some fu, none⟩
      else
        match f.ftext with
        | .error _ => frameScan rest
        | .ok txt =>
          let n := normalizeTxt txt
          if n = "" then frameScan rest
          else if textMatch n then
            some ⟨true, some "frame_text", some fu, some (sliceTo 2000 n)⟩
          else frameScan rest

/-- Frame tiers applied to the page; `page.frames()` throwing skips them. -/
def frameTierOf (p : CPage) : Option CaptchaResult :=
  match p.frames with
  | .error _ => none
  | .ok fs => frameScan fs

/-- Tier 4: strict selector checks.  An iframe selector match is decisive on
its own; a non-iframe match must also pass the phrase check on the element's
own text.  Any throw skips just that selector. -/
def selScan (p : CPage) : List String → Option CaptchaResult
  | [] => none
  | sel :: rest =>
    match p.selFound sel with
    | .error _ => selScan p rest
    | .ok false => selScan p rest
    | .ok true =>
      if isIframeSel sel then
        some ⟨true, some "selector", some sel, none⟩
      else
        match p.selText sel with
        | .error _ => selScan p rest
        | .ok text =>
          let nt := normalizeTxt text
          if textMatch nt then
            some ⟨true, some "selector_text", some sel, some (sliceTo 2000 nt)⟩
          else selScan p rest

/-- Tier 4 applied to the page with the source's selector list. -/
def selTier (p : CPage) : Option CaptchaResult :=
  selScan p SELECTOR_CANDIDATES

/-- Tier 5 inner loop: first pattern (EN list then FA list) whose
normalization occurs in the normalized body wins. -/
def patScan (body : String) : List String → Option CaptchaResult
  | [] => none
  | pt :: rest =>
    let p := normalizeTxt pt
    if p ≠ "" && containsSub body p then
      some ⟨true, some "text", some p, some (sliceTo 2000 body)⟩
    else patScan body rest

/-- Tier 5: full-page body-text scan; a throw reading the body yields `""`,
and an empty normalized body skips the tier. -/
def textTier (pg : CPage) : Option CaptchaResult :=
  let body :=
    match pg.bodyText with
    | .ok b => b
    | .error _ => ""
  let nb := normalizeTxt body
  if nb = "" then none else patScan nb (TEXT_PATTERNS_EN ++ TEXT_PATTERNS_FA)

/-- `detectCaptcha` from `src/utils/captcha.js`: the tiers run in order and
the first `some` is returned; if none fires the result is
`{ detected: false }`.  Every fallible page query is individually guarded in
the source exactly as modelled in the tiers, so the outer catch (which also
yields `{ detected: false }`) has no further fault source to absorb here. -/
def detectCaptcha (p : CPage) : CaptchaResult :=
  match urlTier p with
  | some r => r
  | none =>
    match frameTierOf p with
    | some r => r
    | none =>
      match selTier p with
      | some r => r
      | none =>
        match textTier p with
        | some r => r
        | none => notDetected

/-! ## HumanPacer: `humanType` from `src/utils/human.js` -/

/-- Page abstraction for `humanType`: `query sel` models `page.$(sel)`
(`some ()` = element found, element identity irrelevant here). -/
structure HPage where
  query : String → Option Unit

/-- Target of `humanType`: a selector string or an already-resolved handle
(possibly null, as any JS value can be passed). -/
abbrev HumanTarget := Sum String (Option Unit)

/-- `humanType(page, handleOrSelector, text)` from `src/utils/human.js`.
A selector target is resolved through `page.$`; a missing handle throws
`"humanType: handle not found"`.  On success the focused typing loop emits one
`(character, delay)` pair per character, with delay
`minDelay + Math.floor(Math.random() * (maxDelay - minDelay))` — the random
floors are supplied by the stream `rand` (defaults: `minDelay = 70`,
`maxDelay = 140`). -/
def humanType (page : HPage) (target : HumanTarget) (text : String)
    (rand : Nat → Nat) (minDelay maxDelay : Nat) :
    Except String (List (Char × Nat)) :=
  let handle : Option Unit :=
    match target with
    | .inl sel => page.query sel
    | .inr h => h
  match handle with
  | none => .error "humanType: handle not found"
  | some _ =>
    .ok (text.data.enum.map (fun ic => (ic.2, minDelay + rand ic.1 % (maxDelay - minDelay))))

/-! ## Login state machine from `src/controllers/facebookController.js` -/

/-- One polling tick's page snapshot inside `waitForLoginOutcome`.  Each of
the three checks is individually try/catch-guarded in the source, so a
faulting check is absorbed into the snapshot as "indicator not visible",
"captcha not detected" or "empty body text" respectively. -/
structure LoginSnap where
  searchInputVisible : Bool
  captcha : CaptchaResult
  bodyText : String

/-- Result classification of one login attempt; `alreadyLoggedIn` is produced
by the pre-submit check in `doLoginOnce`, the others by
`waitForLoginOutcome`. -/
inductive LoginOutcome
  | success
  | alreadyLoggedIn
  | captcha (c : CaptchaResult)
  | invalidCreds (snippet : String)
  | timeout
deriving DecidableEq, Repr

/-- Invalid-credentials body-text markers from the polling loop (the body is
lowercased first; primary and fallback language). -/
def invalidCredsMatch (nb : String) : Bool :=
  containsSub nb "incorrect" ||
  containsSub nb "wrong password" ||
  containsSub nb "password you entered is incorrect" ||
  containsSub nb "اطلاعات ورود صحیح نمی‌باشد" ||
  containsSub nb "رمز عبور"

/-- One tick of the polling loop: success marker, then captcha, then
invalid-credentials text, in source order; `none` means the tick falls
through to the 700 ms sleep. -/
def classifyTick (t : LoginSnap) : Option LoginOutcome :=
  if t.searchInputVisible then some .success
  else if t.captcha.detected then some (.captcha t.captcha)
  else if invalidCredsMatch (strLower t.bodyText) then
    some (.invalidCreds (sliceTo 800 (strLower t.bodyText)))
  else none

/-- `waitForLoginOutcome`: repeatedly snapshot-and-classify until a tick is
conclusive; the finite tick list models the 20 s polling budget, and running
out of ticks is the deadline, i.e. `timeout`. -/
def waitForLoginOutcome : List LoginSnap → LoginOutcome
  | [] => .timeout
  | t :: ts =>
    match classifyTick t with
    | some o => o
    | none => waitForLoginOutcome ts

/-- Environment of one full login attempt (`doLoginOnce`): the post-navigation
already-logged-in probe, the fallible phase covering the credential-field
waits, typing and the submit click (`Except.error msg` = that phase threw with
message `msg`), and the polling-loop snapshots. -/
structure AttemptEnv where
  preLoggedIn : Bool
  fieldsOk : Except String Unit
  ticks : List LoginSnap

/-- `doLoginOnce`: navigate, short-circuit when already logged in, otherwise
wait for the credential fields, type, submit and poll for the outcome.  A
throw anywhere in the attempt propagates to the retry loop's catch. -/
def doLoginOnce (e : AttemptEnv) : Except String LoginOutcome :=
  if e.preLoggedIn then .ok .alreadyLoggedIn
  else
    match e.fieldsOk with
    | .error msg => .error msg
    | .ok _ => .ok (waitForLoginOutcome e.ticks)

/-- Payload of the `detail` field of a login failure: a text snippet for
invalid credentials, the captcha detection result for captcha exhaustion. -/
inductive LoginDetail
  | snippet (s : String)
  | captchaDetail (c : CaptchaResult)
deriving DecidableEq, Repr

/-- Result envelope of `login`.  The source's already-logged-in outcome is
caught by the `outcome.success` branch, which returns plain
`{ success: true }`, so no `alreadyLoggedIn` field survives to the caller and
none is modelled.  `screenshot` carries the capture reference embedded in the
captcha-exhaustion failure. -/
structure LoginResult where
  success : Bool
  error : Option String
  detail : Option LoginDetail
  screenshot : Option String
deriving DecidableEq, Repr

/-- Observable run of `login`: the returned envelope, the number of
`doLoginOnce` invocations performed, and the list of inter-attempt sleeps (in
ms), in order. -/
structure LoginRun where
  result : LoginResult
  attempts : Nat
  delays : List Nat
deriving DecidableEq, Repr

/-- The retry loop of `login`.  `script a` is the result of attempt `a`
(`doLoginOnce` of that attempt's page environment); `jitter a` is the value of
`Math.floor(Math.random() * 1000)` drawn for a captcha backoff after attempt
`a`, and `tJitter a` the randomized part of a timeout retry delay; `shots a`
is the screenshot reference captured on a captcha outcome at attempt `a`.
`fuel` bounds the loop: the real loop runs `attempt` from 0 and every retry
path increments it while `attempt < maxRetries`, so `fuel = maxRetries + 1 -
attempt` never reaches 0 before a return (the fuel-exhausted branch renders
the source's unreachable post-loop
`{ success: false, error: "max_retries_exceeded" }` fallback). -/
def loginGo (script : Nat → Except String LoginOutcome)
    (jitter tJitter : Nat → Nat) (shots : Nat → Option String)
    (maxRetries : Nat) : Nat → Nat → LoginRun
  | _, 0 => ⟨⟨false, some "max_retries_exceeded", none, none⟩, 0, []⟩
  | attempt, fuel + 1 =>
    match script attempt with
    | .error msg => ⟨⟨false, some msg, none, none⟩, 1, []⟩
    | .ok .success => ⟨⟨true, none, none, none⟩, 1, []⟩
    | .ok .alreadyLoggedIn => ⟨⟨true, none, none, none⟩, 1, []⟩
    | .ok (.captcha c) =>
      if attempt < maxRetries then
        let backoff := min 15000 (1000 * 2 ^ (attempt + 1)) + jitter attempt
        let r := loginGo script jitter tJitter shots maxRetries (attempt + 1) fuel
        ⟨r.result, r.attempts + 1, backoff :: r.delays⟩
      else
        ⟨⟨false, some "captcha_detected", some (.captchaDetail c), shots attempt⟩, 1, []⟩
    | .ok (.invalidCreds s) =>
      ⟨⟨false, some "invalid_credentials",
        (if s = "" then none else some (.snippet s)), none⟩, 1, []⟩
    | .ok .timeout =>
      if attempt < maxRetries then
        let r := loginGo script jitter tJitter shots maxRetries (attempt + 1) fuel
        ⟨r.result, r.attempts + 1, (1000 + tJitter attempt) :: r.delays⟩
      else
        ⟨⟨false, some "timeout", none, none⟩, 1, []⟩

/-- `login(email, password, maxRetries)`: the retry loop started at attempt 0,
with each attempt's outcome produced by `doLoginOnce` on that attempt's page
environment.  (On terminal success paths the source persists the session via
`persistSession`, which never throws.) -/
def login (env : Nat → AttemptEnv) (jitter tJitter : Nat → Nat)
    (shots : Nat → Option String) (maxRetries : Nat) : LoginRun :=
  loginGo (fun a => doLoginOnce (env a)) jitter tJitter shots maxRetries 0 (maxRetries + 1)

/-! ## SendMessage and SendFriendRequest workflows -/

/-- One page interaction performed by a workflow; pure sleeps and the
action throttle do not touch the page and are not traced. -/
inductive Act
  | navigate (url : String)
  | click (desc : String)
  | press (key : String)
  | typeText (s : String)
  | persist
deriving DecidableEq, Repr

/-- The messaging surface the `sendMessage` pipeline navigates to first. -/
def messengerUrl : String := "https://www.facebook.com/messages/t/"

/-- `encodeURIComponent`; percent-encoding is not modelled (identity on the
reserved-character-free names used in this development). -/
def encodeURIComponent (s : String) : String := s

/-- The global search results address for a query. -/
def searchTopUrl (q : String) : String :=
  "https://www.facebook.com/search/top?q=" ++ encodeURIComponent q

/-- Environment of one `sendMessage` call: the answer of each page query the
pipeline performs, in pipeline order.  `searchSel` is the first selector of
the messenger-search cascade that `page.$` resolves (`none`: all missed or
threw); `rowsNonempty`/`rowOpened` summarize the messenger result-row scan and
its per-candidate try/catch click loop; `inputAfterMessenger` is the
message-input existence probe before the global-search fallback;
`globalClicked` records whether the card scan found and clicked a
message-like control; `messageInputFound` is `findMessageInputHandle`
succeeding; `shotRef` is the diagnostic-capture reference per label. -/
structure MsgEnv where
  loginFieldsPresent : Bool
  searchSel : Option String
  rowsNonempty : Bool
  rowOpened : Bool
  inputAfterMessenger : Bool
  globalClicked : Bool
  messageInputFound : Bool
  shotRef : String → Option String

/-- Result envelope of `sendMessage`. -/
structure MsgResult where
  success : Bool
  error : Option String
  screenshot : Option String
deriving DecidableEq, Repr

/-- Final phase of `sendMessage`: resolve the message input through
`findMessageInputHandle`; on failure return `no_message_input`, otherwise
focus (with an incidental pointer move), type the message, submit with Enter
and persist the session. -/
def finishTyping (env : MsgEnv) (text : String) (tr : List Act) :
    MsgResult × List Act :=
  if env.messageInputFound then
    (⟨true, none, none⟩,
     tr ++ [.click "focus-message-input", .typeText text, .press "Enter", .persist])
  else
    (⟨false, some "no_message_input", env.shotRef "no-message-input"⟩, tr)

/-- `sendMessage(recipient, text)` from `src/controllers/facebookController.js`
(the active implementation).  Initial randomized wait and the throttle are
pure delays.  After navigating to the messenger surface the login-field probe
runs first; then the messenger search-and-open path, the message-input
existence check, the global-search fallback, and the typing phase. -/
def sendMessage (env : MsgEnv) (recipient text : String) :
    MsgResult × List Act :=
  let tr0 : List Act := [.navigate messengerUrl]
  if env.loginFieldsPresent then
    (⟨false, some "not_logged_in", env.shotRef "not-logged-in"⟩, tr0)
  else
    -- the wait for the messenger main container is awaited, failures ignored
    let trSearch :=
      match env.searchSel with
      | some _ =>
        let t1 := tr0 ++
          [.click "messenger-search-input", .press "Backspace",
           .typeText recipient, .press "Enter"]
        if env.rowsNonempty && env.rowOpened then t1 ++ [.click "messenger-row"]
        else t1
      | none => tr0
    if env.inputAfterMessenger then
      finishTyping env text trSearch
    else
      let t2 := trSearch ++ [.navigate (searchTopUrl recipient)]
      if env.globalClicked then
        finishTyping env text (t2 ++ [.click "global-message-control"])
      else
        (⟨false, some "no_clickable_row", env.shotRef "no-clickable-row"⟩, t2)

/-- Status string of a `sendFriendRequest` result: the source uses
`status: "success" | "failed"` (not a boolean `success` field). -/
inductive FrStatus
  | success
  | failed
deriving DecidableEq, Repr

/-- Result object of the active `sendFriendRequest`: keys `status`,
`message`, `error`, and — on the paths that set them — `screenshot` and
`profile` (`none` = key absent). -/
structure FriendResult where
  status : FrStatus
  message : String
  error : Option String
  screenshot : Option String
  profile : Option String
deriving DecidableEq, Repr

/-- Environment of one `sendFriendRequest` call: presence of the in-place
add-friend control on the search-results page, the `innerText` of every
`div[role=\x27button\x27]` element at the post-click scan, and the
diagnostic-capture reference for the exception path. -/
structure FriendEnv where
  addFriendBtnPresent : Bool
  buttonTexts : List String
  shotRef : Option String

/-- The already-friends scan run after clicking the control: some visible
button's lowercased text contains a connected indicator (primary or fallback
language; `"already friends"` is subsumed by `"friends"` but kept). -/
def alreadyFriendScan (btns : List String) : Bool :=
  btns.any fun t =>
    let txt := strLower t
    containsSub txt "friends" || containsSub txt "دوست شدید" ||
    containsSub txt "already friends"

/-- The active `sendFriendRequest(profileName)` from
`src/controllers/facebookController.js`.  It navigates to the search results
(the profile-card query it performs there is dead: its result is never used),
requires the in-place add-friend control, clicks it, waits, then scans for an
already-connected indicator.  On the not-already-friends path the next source
statement is `await addFriendButtons[0].click()`, but `addFriendButtons` is
declared only inside a commented-out block, so evaluating it raises
`ReferenceError: addFriendButtons is not defined`; the surrounding catch
converts that into a failed result (after a diagnostic capture).  The
confirmation re-scan, the confirmed/unconfirmed success return and the
`persistSession` call that follow in the source are therefore unreachable. -/
def sendFriendRequest (env : FriendEnv) (profileName : String) :
    FriendResult × List Act :=
  let tr0 : List Act := [.navigate (searchTopUrl profileName)]
  if env.addFriendBtnPresent then
    let tr1 := tr0 ++ [.click "add-friend-control"]
    if alreadyFriendScan env.buttonTexts then
      (⟨.success, "Already friends with this user", none, none, some profileName⟩, tr1)
    else
      (⟨.failed, "Exception while sending friend request",
        some "addFriendButtons is not defined", env.shotRef, some profileName⟩, tr1)
  else
    (⟨.failed, "No \x27Add friend\x27 button found",
      some "no_add_friend_button", none, none⟩, tr0)

/-- A JS value as far as the returned result objects are concerned. -/
inductive JVal
  | str (v : String)
  | boolean (v : Bool)
  | nullv
deriving DecidableEq, Repr

/-- The literal key/value rendering of a `sendFriendRequest` result object,
in the source's key order (`status`, `message`, `error`, then `screenshot`
and `profile` on the paths that include them). -/
def FriendResult.toObj (r : FriendResult) : List (String × JVal) :=
  [("status", .str (match r.status with | .success => "success" | .failed => "failed")),
   ("message", .str r.message),
   ("error", match r.error with | none => .nullv | some e => .str e)] ++
  (match r.screenshot with | none => [] | some sh => [("screenshot", .str sh)]) ++
  (match r.profile with | none => [] | some pr => [("profile", .str pr)])

/-! ## Concrete page states and environments used as witnesses -/

/-- A page with no captcha signal at all. -/
def blankPage : CPage :=
  ⟨.ok "", .ok [], fun _ => .ok false, fun _ => .ok "", .ok ""⟩

/-- A page on which every query faults. -/
def allFaultPage : CPage :=
  ⟨.error (), .error (), fun _ => .error (), fun _ => .error (), .error ()⟩

/-- A frame whose address is benign but whose readable text contains the
challenge phrase "security check". -/
def frameWithChallengeText : Frame :=
  ⟨.ok "https://example.com/widget", .ok "Security check"⟩

/-- A frame whose address matches the challenge-widget pattern. -/
def frameRecaptcha : Frame :=
  ⟨.ok "https://www.google.com/recaptcha/api2/anchor", .ok ""⟩

/-- Top-level URL without checkpoint pattern; first frame has matching text,
second frame has a matching address. -/
def pageC4 : CPage :=
  ⟨.ok "https://www.facebook.com/feed",
   .ok [frameWithChallengeText, frameRecaptcha],
   fun _ => .ok false, fun _ => .ok "", .ok ""⟩

/-- Page whose only signal is a frame with a challenge-widget address. -/
def pageFrameUrlHit : CPage :=
  ⟨.ok "", .ok [frameRecaptcha], fun _ => .ok false, fun _ => .ok "", .ok ""⟩

/-- A concrete captcha detection result (tier-1 style). -/
def cResC : CaptchaResult :=
  ⟨true, some "url", some "https://www.facebook.com/checkpoint/123", none⟩

/-- A polling snapshot on which the captcha check fires. -/
def snapCaptcha : LoginSnap := ⟨false, cResC, ""⟩

/-- A polling snapshot showing an invalid-credentials marker. -/
def snapInvalid : LoginSnap := ⟨false, notDetected, "Wrong Password entered"⟩

/-- A polling snapshot showing the logged-in marker. -/
def snapSuccess : LoginSnap := ⟨true, notDetected, ""⟩

/-- A login attempt that ends in captcha detection. -/
def attEnvCaptcha : AttemptEnv := ⟨false, .ok (), [snapCaptcha]⟩

/-- A login attempt that ends in the invalid-credentials classification. -/
def attEnvInvalid : AttemptEnv := ⟨false, .ok (), [snapInvalid]⟩

/-- A login attempt that succeeds on its first polling tick. -/
def attEnvSuccess : AttemptEnv := ⟨false, .ok (), [snapSuccess]⟩

/-- A `sendMessage` environment whose page shows login fields right after
navigating to the messenger surface. -/
def msgEnvNotLogged : MsgEnv :=
  ⟨true, none, false, false, false, false, false,
   fun label => some ("/screenshots/2025-10-11/" ++ label ++ ".png")⟩

/-- A `sendMessage` environment on which the chat is already open and the
message input is found. -/
def msgEnvSuccess : MsgEnv :=
  ⟨false, none, false, false, true, false, true, fun _ => none⟩

/-- A `sendFriendRequest` environment: add-friend control present, no
already-connected indicator among the visible buttons. -/
def envFriendBug : FriendEnv :=
  ⟨true, ["Follow", "Message"],
   some "/screenshots/2025-10-11/sendFriendRequest-exception.png"⟩

/-- A `sendFriendRequest` environment: add-friend control present and a
visible "Friends" button (already connected). -/
def envFriendAlready : FriendEnv := ⟨true, ["Friends"], none⟩

/-- A page on which `humanType`'s selector lookup finds nothing. -/
def hpageEmpty : HPage := ⟨fun _ => none⟩

/-! ## Supporting lemmas about the detection tiers -/

theorem urlTier_some_detected {p : CPage} {r : CaptchaResult}
    (h : urlTier p = some r) : r.detected = true := by
  simp only [urlTier] at h
  split at h
  · cases h; rfl
  · cases h

theorem frameScan_some_detected :
    ∀ (fs : List Frame) {r : CaptchaResult}, frameScan fs = some r → r.detected = true := by
  intro fs
  induction fs with
  | nil => intro r h; cases h
  | cons f rest ih =>
    intro r h
    cases hfu : f.furl with
    | error e => simp only [frameScan, hfu] at h; cases h
    | ok fu =>
      simp only [frameScan, hfu] at h
      split at h
      · cases h; rfl
      · cases hft : f.ftext with
        | error e => simp only [hft] at h; exact ih h
        | ok txt =>
          simp only [hft] at h
          split at h
          · exact ih h
          · split at h
            · cases h; rfl
            · exact ih h

theorem selScan_some_detected (p : CPage) :
    ∀ (sels : List String) {r : CaptchaResult}, selScan p sels = some r → r.detected = true := by
  intro sels
  induction sels with
  | nil => intro r h; cases h
  | cons sel rest ih =>
    intro r h
    cases hsf : p.selFound sel with
    | error e => simp only [selScan, hsf] at h; exact ih h
    | ok b =>
      cases b with
      | false => simp only [selScan, hsf] at h; exact ih h
      | true =>
        simp only [selScan, hsf] at h
        split at h
        · cases h; rfl
        · cases hst : p.selText sel with
          | error e => simp only [hst] at h; exact ih h
          | ok text =>
            simp only [hst] at h
            split at h
            · cases h; rfl
            · exact ih h

theorem patScan_some_detected (body : String) :
    ∀ (pats : List String) {r : CaptchaResult}, patScan body pats = some r → r.detected = true := by
  intro pats
  induction pats with
  | nil => intro r h; cases h
  | cons pt rest ih =>
    intro r h
    simp only [patScan] at h
    split at h
    · cases h; rfl
    · exact ih h

theorem frameTierOf_some_detected {p : CPage} {r : CaptchaResult}
    (h : frameTierOf p = some r) : r.detected = true := by
  cases hf : p.frames with
  | error e => simp only [frameTierOf, hf] at h; cases h
  | ok fs =>
    simp only [frameTierOf, hf] at h
    exact frameScan_some_detected fs h

theorem selTier_some_detected {p : CPage} {r : CaptchaResult}
    (h : selTier p = some r) : r.detected = true :=
  selScan_some_detected p SELECTOR_CANDIDATES h

theorem textTier_some_detected {p : CPage} {r : CaptchaResult}
    (h : textTier p = some r) : r.detected = true := by
  simp only [textTier] at h
  split at h
  · cases h
  · exact patScan_some_detected _ _ h

theorem detectCaptcha_cases (p : CPage) :
    detectCaptcha p = notDetected ∨ (detectCaptcha p).detected = true := by
  unfold detectCaptcha
  cases hu : urlTier p with
  | some r => exact Or.inr (urlTier_some_detected hu)
  | none =>
    cases hf : frameTierOf p with
    | some r => exact Or.inr (frameTierOf_some_detected hf)
    | none =>
      cases hs : selTier p with
      | some r => exact Or.inr (selTier_some_detected hs)
      | none =>
        cases ht : textTier p with
        | some r => exact Or.inr (textTier_some_detected ht)
        | none => exact Or.inl rfl

theorem detectCaptcha_eq_of_tiers {p q : CPage}
    (h1 : urlTier p = urlTier q) (h2 : frameTierOf p = frameTierOf q)
    (h3 : selTier p = selTier q) (h4 : textTier p = textTier q) :
    detectCaptcha p = detectCaptcha q := by
  unfold detectCaptcha
  rw [h1, h2, h3, h4]

/-- C5.  Every `CaptchaResult` returned by `detectCaptcha` with
`detected == false` has `method == none` and `match == null`: the only
not-detected value the source ever returns is the bare `{ detected: false }`
object, whose `method` and `match` fields are absent. -/
theorem detectCaptcha_not_detected_shape (p : CPage)
    (h : (detectCaptcha p).detected = false) :
    (detectCaptcha p).method = none ∧ (detectCaptcha p).matchv = none := by
  rcases detectCaptcha_cases p with heq | hdet
  · rw [heq]; exact ⟨rfl, rfl⟩
  · rw [hdet] at h; cases h

theorem detectCaptcha_not_detected_shape_witness :
    (detectCaptcha blankPage).detected = false ∧
    ((detectCaptcha blankPage).method = none ∧
     (detectCaptcha blankPage).matchv = none) :=
  ⟨by decide, detectCaptcha_not_detected_shape blankPage (by decide)⟩

/-- C7.  `detectCaptcha` never propagates an exception: it is a total
function into `CaptchaResult`, a faulting query is handled exactly like the
corresponding no-match answer (top URL read, frame list, per-frame text read,
selector lookups, body read), and on a page where every query faults the
result is the not-detected `{ detected: false }`. -/
theorem detectCaptcha_fault_tolerant :
    (∀ p : CPage,
      detectCaptcha { p with url := .error () } =
      detectCaptcha { p with url := .ok "" }) ∧
    (∀ p : CPage,
      detectCaptcha { p with frames := .error () } =
      detectCaptcha { p with frames := .ok [] }) ∧
    (∀ (p : CPage) (u : String) (rest : List Frame),
      detectCaptcha { p with frames := .ok (⟨.ok u, .error ()⟩ :: rest) } =
      detectCaptcha { p with frames := .ok (⟨.ok u, .ok ""⟩ :: rest) }) ∧
    (∀ p : CPage,
      detectCaptcha { p with selFound := fun _ => .error () } =
      detectCaptcha { p with selFound := fun _ => .ok false }) ∧
    (∀ p : CPage,
      detectCaptcha { p with bodyText := .error () } =
      detectCaptcha { p with bodyText := .ok "" }) ∧
    detectCaptcha allFaultPage = notDetected := by
  refine ⟨?_, ?_, ?_, ?_, ?_, by decide⟩
  · intro p; exact detectCaptcha_eq_of_tiers rfl rfl rfl rfl
  · intro p; exact detectCaptcha_eq_of_tiers rfl rfl rfl rfl
  · intro p u rest; exact detectCaptcha_eq_of_tiers rfl rfl rfl rfl
  · intro p; exact detectCaptcha_eq_of_tiers rfl rfl rfl rfl
  · intro p; exact detectCaptcha_eq_of_tiers rfl rfl rfl rfl

theorem frameScan_fires :
    ∀ (fs : List Frame),
    (∀ f ∈ fs, ∃ u, f.furl = Except.ok u) →
    (∃ f ∈ fs, ∃ u, f.furl = Except.ok u ∧ framePattern u = true) →
    ∃ r, frameScan fs = some r ∧ r.detected = true ∧
      (r.method = some "frame_url" ∨ r.method = some "frame_text") := by
  intro fs
  induction fs with
  | nil =>
    intro _ hm
    rcases hm with ⟨f, hf, _⟩
    exact absurd hf (List.not_mem_nil f)
  | cons f rest ih =>
    intro hok hm
    obtain ⟨u, hu⟩ := hok f (List.mem_cons_self f rest)
    by_cases hfp : framePattern u = true
    · refine ⟨⟨true, some "frame_url", some u, none⟩, ?_, rfl, Or.inl rfl⟩
      simp [frameScan, hu, hfp]
    · have hrest : ∃ g ∈ rest, ∃ v, g.furl = Except.ok v ∧ framePattern v = true := by
        rcases hm with ⟨g, hg, v, hgv, hvp⟩
        rcases List.mem_cons.mp hg with hgf | hgr
        · subst hgf; rw [hu] at hgv; cases hgv; exact absurd hvp hfp
        · exact ⟨g, hgr, v, hgv, hvp⟩
      have hokr : ∀ g ∈ rest, ∃ v, g.furl = Except.ok v :=
        fun g hg => hok g (List.mem_cons_of_mem f hg)
      obtain ⟨r, hr, hd, hmeth⟩ := ih hokr hrest
      cases hft : f.ftext with
      | error e =>
        exact ⟨r, by simp [frameScan, hu, hfp, hft, hr], hd, hmeth⟩
      | ok txt =>
        by_cases hn : normalizeTxt txt = ""
        · exact ⟨r, by simp [frameScan, hu, hfp, hft, hn, hr], hd, hmeth⟩
        · by_cases ht : textMatch (normalizeTxt txt) = true
          · refine ⟨⟨true, some "frame_text", some u, some (sliceTo 2000 (normalizeTxt txt))⟩,
              ?_, rfl, Or.inr rfl⟩
            simp [frameScan, hu, hfp, hft, hn, ht]
          · exact ⟨r, by simp [frameScan, hu, hfp, hft, hn, ht, hr], hd, hmeth⟩

/-- C4 (amended).  When the top-level URL tier does not fire, the frame list
is readable, every frame's address is readable and some frame's address
matches a challenge-widget pattern, `detectCaptcha` reports a detection — but
with method `frame_url` or `frame_text`: the two frame heuristics are
interleaved per frame in frame order (each frame's address check precedes
only that same frame's text check), so an earlier frame's readable-text match
can preempt a later frame's address match. -/
theorem frame_address_tier_fires (p : CPage) (fs : List Frame)
    (hurl : urlTier p = none)
    (hfr : p.frames = Except.ok fs)
    (hok : ∀ f ∈ fs, ∃ u, f.furl = Except.ok u)
    (hm : ∃ f ∈ fs, ∃ u, f.furl = Except.ok u ∧ framePattern u = true) :
    (detectCaptcha p).detected = true ∧
    ((detectCaptcha p).method = some "frame_url" ∨
     (detectCaptcha p).method = some "frame_text") := by
  obtain ⟨r, hr, hd, hmeth⟩ := frameScan_fires fs hok hm
  have hft : frameTierOf p = some r := by simp [frameTierOf, hfr, hr]
  have hres : detectCaptcha p = r := by
    unfold detectCaptcha
    rw [hurl, hft]
  rw [hres]
  exact ⟨hd, hmeth⟩

theorem frame_address_tier_fires_witness :
    (detectCaptcha pageFrameUrlHit).detected = true ∧
    ((detectCaptcha pageFrameUrlHit).method = some "frame_url" ∨
     (detectCaptcha pageFrameUrlHit).method = some "frame_text") := by
  refine frame_address_tier_fires pageFrameUrlHit [frameRecaptcha] (by decide) rfl ?_ ?_
  · intro f hf
    rw [List.mem_singleton] at hf
    subst hf
    exact ⟨_, rfl⟩
  · exact ⟨frameRecaptcha, List.mem_singleton.mpr rfl, _, rfl, by decide⟩

/-- C4 (counterexample).  On `pageC4` the top-level URL matches no checkpoint
pattern and the second frame's address matches a challenge-widget pattern,
yet the result's method is `frame_text` (for the first frame), not
`frame_url`: the frame-address tier does not strictly precede the frame-text
tier across frames. -/
theorem frame_text_preempts_frame_address :
    urlPattern "https://www.facebook.com/feed" = false ∧
    framePattern "https://www.google.com/recaptcha/api2/anchor" = true ∧
    detectCaptcha pageC4 =
      ⟨true, some "frame_text", some "https://example.com/widget",
       some "security check"⟩ ∧
    (detectCaptcha pageC4).method ≠ some "frame_url" := by
  refine ⟨by decide, by decide, by decide, by decide⟩

/-! ## Login retry-loop lemmas -/

theorem loginGo_captcha_run (script : Nat → Except String LoginOutcome)
    (jitter tJitter : Nat → Nat) (shots : Nat → Option String)
    (maxRetries : Nat) (c : Nat → CaptchaResult) :
    ∀ (fuel attempt : Nat), attempt + fuel = maxRetries + 1 → attempt ≤ maxRetries →
    (∀ i, attempt ≤ i → i ≤ maxRetries → script i = .ok (.captcha (c i))) →
    loginGo script jitter tJitter shots maxRetries attempt fuel =
      ⟨⟨false, some "captcha_detected", some (.captchaDetail (c maxRetries)),
        shots maxRetries⟩,
       fuel,
       (List.range' attempt (maxRetries - attempt)).map
         (fun a => min 15000 (1000 * 2 ^ (a + 1)) + jitter a)⟩ := by
  intro fuel
  induction fuel with
  | zero => intro attempt h1 h2 _; omega
  | succ n ih =>
    intro attempt h1 h2 h3
    have hs : script attempt = .ok (.captcha (c attempt)) := h3 attempt le_rfl h2
    by_cases hlt : attempt < maxRetries
    · have hrec := ih (attempt + 1) (by omega) (by omega)
        (fun i hi1 hi2 => h3 i (by omega) hi2)
      simp only [loginGo, hs, hlt, if_true, hrec]
      have hr : maxRetries - attempt = (maxRetries - (attempt + 1)) + 1 := by omega
      rw [hr, List.range'_succ]
      simp
    · have hat : attempt = maxRetries := by omega
      have hn : n = 0 := by omega
      subst hat hn
      simp [loginGo, hs, hlt]

theorem loginGo_invalid_run (script : Nat → Except String LoginOutcome)
    (jitter tJitter : Nat → Nat) (shots : Nat → Option String)
    (maxRetries a : Nat) (s : String) :
    ∀ (fuel attempt : Nat), attempt + fuel = maxRetries + 1 →
    attempt ≤ a → a ≤ maxRetries →
    (∀ i, attempt ≤ i → i < a →
      (∃ ci, script i = .ok (.captcha ci)) ∨ script i = .ok .timeout) →
    script a = .ok (.invalidCreds s) →
    (loginGo script jitter tJitter shots maxRetries attempt fuel).result =
      ⟨false, some "invalid_credentials",
       (if s = "" then none else some (.snippet s)), none⟩ ∧
    (loginGo script jitter tJitter shots maxRetries attempt fuel).attempts =
      a + 1 - attempt := by
  intro fuel
  induction fuel with
  | zero => intro attempt h1 h2 h3 _ _; omega
  | succ n ih =>
    intro attempt h1 h2 h3 hpre hinv
    by_cases heq : attempt = a
    · subst heq
      simp [loginGo, hinv]
    · have hlta : attempt < a := by omega
      have hltm : attempt < maxRetries := by omega
      have hrec := ih (attempt + 1) (by omega) (by omega) h3
        (fun i hi1 hi2 => hpre i (by omega) hi2) hinv
      rcases hpre attempt le_rfl hlta with ⟨ci, hci⟩ | hto
      · simp only [loginGo, hci, hltm, if_true]
        refine ⟨hrec.1, ?_⟩
        rw [hrec.2]
        omega
      · simp only [loginGo, hto, hltm, if_true]
        refine ⟨hrec.1, ?_⟩
        rw [hrec.2]
        omega

/-- C6.  In `login`, a captcha outcome on a non-final attempt causes exactly
one backoff sleep before the next attempt, of
`min(15000, 1000·2^n) + jitter` where `n` is the 1-based number of the
attempt that saw the captcha (the source increments the 0-based counter
before computing the backoff) and the jitter is the floor of
`Math.random()·1000`, hence `< 1000`; exhausting all retries on captcha
returns `success: false`, `error: "captcha_detected"` with the last captcha
detail attached. -/
theorem captcha_backoff_and_exhaustion (env : Nat → AttemptEnv)
    (jitter tJitter : Nat → Nat) (shots : Nat → Option String)
    (maxRetries : Nat) (c : Nat → CaptchaResult)
    (hc : ∀ i, i ≤ maxRetries → doLoginOnce (env i) = .ok (.captcha (c i)))
    (hj : ∀ n, jitter n < 1000) :
    (login env jitter tJitter shots maxRetries).delays =
      (List.range maxRetries).map
        (fun a => min 15000 (1000 * 2 ^ (a + 1)) + jitter a) ∧
    (∀ a, a < maxRetries →
      min 15000 (1000 * 2 ^ (a + 1)) + jitter a <
        min 15000 (1000 * 2 ^ (a + 1)) + 1000) ∧
    (login env jitter tJitter shots maxRetries).attempts = maxRetries + 1 ∧
    (login env jitter tJitter shots maxRetries).result =
      ⟨false, some "captcha_detected", some (.captchaDetail (c maxRetries)),
       shots maxRetries⟩ := by
  have h := loginGo_captcha_run (fun a => doLoginOnce (env a)) jitter tJitter shots
    maxRetries c (maxRetries + 1) 0 (by omega) (by omega)
    (fun i _ hi2 => hc i hi2)
  unfold login
  rw [h]
  refine ⟨?_, fun a _ => by have := hj a; omega, rfl, rfl⟩
  simp [List.range_eq_range']

theorem captcha_backoff_and_exhaustion_witness :
    (login (fun _ => attEnvCaptcha) (fun _ => 500) (fun _ => 0) (fun _ => none) 2).delays =
      [2500, 4500] ∧
    (login (fun _ => attEnvCaptcha) (fun _ => 500) (fun _ => 0) (fun _ => none) 2).attempts = 3 ∧
    (login (fun _ => attEnvCaptcha) (fun _ => 500) (fun _ => 0) (fun _ => none) 2).result =
      ⟨false, some "captcha_detected", some (.captchaDetail cResC), none⟩ := by
  have h := captcha_backoff_and_exhaustion (fun _ => attEnvCaptcha) (fun _ => 500)
    (fun _ => 0) (fun _ => none) 2 (fun _ => cResC)
    (fun i _ => rfl) (fun n => Nat.lt_of_lt_of_le (by decide : (500 : Nat) < 1000) le_rfl)
  exact ⟨h.1.trans (by decide), h.2.2.1, h.2.2.2⟩

theorem eq_empty_of_data_nil {s : String} (h : s.data = []) : s = "" := by
  cases s with
  | mk l => cases h; rfl

theorem invalidCredsMatch_ne_empty {nb : String}
    (h : invalidCredsMatch nb = true) : nb ≠ "" := by
  intro hnb
  rw [hnb] at h
  exact absurd h (by decide)

theorem sliceTo_ne_empty {s : String} (h : s ≠ "") : sliceTo 800 s ≠ "" := by
  intro hsl
  apply h
  apply eq_empty_of_data_nil
  have hd : s.data.take 800 = [] := congrArg String.data hsl
  cases hl : s.data with
  | nil => rfl
  | cons c cs => rw [hl] at hd; simp at hd

theorem classifyTick_invalid_ne_empty {t : LoginSnap} {s : String}
    (h : classifyTick t = some (.invalidCreds s)) : s ≠ "" := by
  unfold classifyTick at h
  split at h
  · simp at h
  · split at h
    · simp at h
    · split at h
      case isTrue hmatch =>
        have hs : s = sliceTo 800 (strLower t.bodyText) := by
          cases h; rfl
        rw [hs]
        exact sliceTo_ne_empty (invalidCredsMatch_ne_empty hmatch)
      case isFalse => cases h

theorem waitFor_invalid_ne_empty :
    ∀ (ts : List LoginSnap) {s : String},
    waitForLoginOutcome ts = .invalidCreds s → s ≠ "" := by
  intro ts
  induction ts with
  | nil => intro s h; cases h
  | cons t rest ih =>
    intro s h
    simp only [waitForLoginOutcome] at h
    cases hc : classifyTick t with
    | none => simp only [hc] at h; exact ih h
    | some o =>
      simp only [hc] at h
      rw [h] at hc
      exact classifyTick_invalid_ne_empty hc

theorem doLoginOnce_invalid_ne_empty {e : AttemptEnv} {s : String}
    (h : doLoginOnce e = .ok (.invalidCreds s)) : s ≠ "" := by
  unfold doLoginOnce at h
  split at h
  · simp at h
  · cases hf : e.fieldsOk with
    | error m =>
      simp only [hf] at h
      exact Except.noConfusion h
    | ok u =>
      simp only [hf] at h
      exact waitFor_invalid_ne_empty e.ticks (Except.ok.inj h)

/-- C8.  Whenever the outcome polling of a reached login attempt classifies
the page as invalid credentials, `login` returns at once with `success:
false`, `error: "invalid_credentials"` and the detected (necessarily
non-empty) text snippet as `detail`, performing no further attempt no matter
how many retries remain. -/
theorem invalid_credentials_terminal (env : Nat → AttemptEnv)
    (jitter tJitter : Nat → Nat) (shots : Nat → Option String)
    (maxRetries a : Nat) (s : String)
    (ha : a ≤ maxRetries)
    (hpre : ∀ i, i < a →
      (∃ ci, doLoginOnce (env i) = .ok (.captcha ci)) ∨
      doLoginOnce (env i) = .ok .timeout)
    (hinv : doLoginOnce (env a) = .ok (.invalidCreds s)) :
    (login env jitter tJitter shots maxRetries).result =
      ⟨false, some "invalid_credentials", some (.snippet s), none⟩ ∧
    (login env jitter tJitter shots maxRetries).attempts = a + 1 := by
  have hs : s ≠ "" := doLoginOnce_invalid_ne_empty hinv
  have h := loginGo_invalid_run (fun i => doLoginOnce (env i)) jitter tJitter shots
    maxRetries a s (maxRetries + 1) 0 (by omega) (by omega) ha
    (fun i _ hi2 => hpre i hi2) hinv
  rw [if_neg hs] at h
  unfold login
  exact ⟨h.1, by simpa using h.2⟩

theorem invalid_credentials_terminal_witness :
    (login (fun _ => attEnvInvalid) (fun _ => 0) (fun _ => 0) (fun _ => none) 2).result =
      ⟨false, some "invalid_credentials",
       some (.snippet "wrong password entered"), none⟩ ∧
    (login (fun _ => attEnvInvalid) (fun _ => 0) (fun _ => 0) (fun _ => none) 2).attempts = 1 :=
  invalid_credentials_terminal (fun _ => attEnvInvalid) (fun _ => 0) (fun _ => 0)
    (fun _ => none) 2 0 "wrong password entered" (by omega)
    (fun i hi => absurd hi (Nat.not_lt_zero i)) rfl

/-- C9.  When login-form fields are present right after navigating to the
messaging surface, `sendMessage` fails fast with `not_logged_in`: the result
carries the diagnostic capture reference and the page trace consists of that
single navigation — no typing, searching, clicking or further navigation. -/
theorem not_logged_in_fail_fast (env : MsgEnv) (recipient text : String)
    (h : env.loginFieldsPresent = true) :
    (sendMessage env recipient text).1 =
      ⟨false, some "not_logged_in", env.shotRef "not-logged-in"⟩ ∧
    (sendMessage env recipient text).2 = [Act.navigate messengerUrl] := by
  simp [sendMessage, h]

theorem not_logged_in_fail_fast_witness :
    (sendMessage msgEnvNotLogged "Bob" "hi").1 =
      ⟨false, some "not_logged_in",
       some "/screenshots/2025-10-11/not-logged-in.png"⟩ ∧
    (sendMessage msgEnvNotLogged "Bob" "hi").2 = [Act.navigate messengerUrl] := by
  have h := not_logged_in_fail_fast msgEnvNotLogged "Bob" "hi" rfl
  exact ⟨h.1.trans (by decide), h.2⟩

/-- C10.  `humanType` called with a selector-string target that matches no
element throws `"humanType: handle not found"` (modelled as `Except.error`)
instead of returning normally or silently skipping; in the embedding the
error value propagates to the caller, where only a workflow-level fault
boundary turns it into a failure result. -/
theorem humanType_missing_handle (page : HPage) (sel text : String)
    (rand : Nat → Nat) (minDelay maxDelay : Nat)
    (h : page.query sel = none) :
    humanType page (Sum.inl sel) text rand minDelay maxDelay =
      .error "humanType: handle not found" := by
  simp [humanType, h]

theorem humanType_missing_handle_witness :
    humanType hpageEmpty (Sum.inl "#email") "user@example.com" (fun _ => 0) 70 140 =
      .error "humanType: handle not found" :=
  humanType_missing_handle hpageEmpty "#email" "user@example.com" (fun _ => 0) 70 140 rfl

/-- C2 (counterexample).  On a page with the add-friend control present and a
visible "Friends" button, the active `sendFriendRequest` does return a
success outcome — but only after clicking the add-relationship control: the
already-connected scan runs after the click, so "no click performed" is
false. -/
theorem already_connected_click_counterexample :
    (sendFriendRequest envFriendAlready "Alice").1.status = FrStatus.success ∧
    Act.click "add-friend-control" ∈ (sendFriendRequest envFriendAlready "Alice").2 := by
  decide

/-- C2 (amended).  When the add-relationship control is present and the
post-click scan of visible buttons finds an already-connected indicator
(primary or fallback language), `sendFriendRequest` returns the
already-friends success result with `error: null` — but the trace shows the
control has already been clicked once before the scan. -/
theorem already_connected_success_after_click (env : FriendEnv) (name : String)
    (hbtn : env.addFriendBtnPresent = true)
    (hind : alreadyFriendScan env.buttonTexts = true) :
    (sendFriendRequest env name).1 =
      ⟨.success, "Already friends with this user", none, none, some name⟩ ∧
    (sendFriendRequest env name).2 =
      [.navigate (searchTopUrl name), .click "add-friend-control"] := by
  simp [sendFriendRequest, hbtn, hind]

theorem already_connected_success_after_click_witness :
    (sendFriendRequest envFriendAlready "Alice").1 =
      ⟨.success, "Already friends with this user", none, none, some "Alice"⟩ ∧
    (sendFriendRequest envFriendAlready "Alice").2 =
      [.navigate (searchTopUrl "Alice"), .click "add-friend-control"] :=
  already_connected_success_after_click envFriendAlready "Alice" rfl (by decide)

/-- C1 (code-bug evaluation).  On a page with the add-friend control present
and no already-connected indicator, `sendFriendRequest` does not return the
confirmed/unconfirmed success the spec describes: after clicking the control
it evaluates the undefined identifier `addFriendButtons` (declared only in a
commented-out block), so it returns a failed result carrying the
ReferenceError message, and the session is never persisted. -/
theorem missing_identifier_fails_friend_request :
    sendFriendRequest envFriendBug "Alice" =
      (⟨.failed, "Exception while sending friend request",
        some "addFriendButtons is not defined",
        some "/screenshots/2025-10-11/sendFriendRequest-exception.png",
        some "Alice"⟩,
       [.navigate (searchTopUrl "Alice"), .click "add-friend-control"]) ∧
    Act.persist ∉ (sendFriendRequest envFriendBug "Alice").2 := by
  refine ⟨by decide, by decide⟩

/-- C3 (counterexample).  The already-friends result object of
`sendFriendRequest` carries no boolean `success` field at all: its literal
key/value rendering has no `"success"` key — it uses a `status` string
instead.  The uniform-envelope claim therefore fails for
`sendFriendRequest`. -/
theorem friend_result_lacks_success_field :
    ((sendFriendRequest envFriendAlready "Alice").1.toObj.lookup "success") = none ∧
    ((sendFriendRequest envFriendAlready "Alice").1.toObj.lookup "status") =
      some (JVal.str "success") := by
  decide

theorem loginGo_success_no_error (script : Nat → Except String LoginOutcome)
    (jitter tJitter : Nat → Nat) (shots : Nat → Option String) (maxRetries : Nat) :
    ∀ (fuel attempt : Nat),
    (loginGo script jitter tJitter shots maxRetries attempt fuel).result.success = true →
    (loginGo script jitter tJitter shots maxRetries attempt fuel).result.error = none := by
  intro fuel
  induction fuel with
  | zero => intro attempt h; simp [loginGo] at h
  | succ n ih =>
    intro attempt h
    cases hs : script attempt with
    | error msg => simp [loginGo, hs] at h
    | ok o =>
      cases o with
      | success => simp [loginGo, hs]
      | alreadyLoggedIn => simp [loginGo, hs]
      | captcha c =>
        by_cases hlt : attempt < maxRetries
        · simp only [loginGo, hs, hlt, if_true] at h ⊢
          exact ih (attempt + 1) h
        · simp [loginGo, hs, hlt] at h
      | invalidCreds s => simp [loginGo, hs] at h
      | timeout =>
        by_cases hlt : attempt < maxRetries
        · simp only [loginGo, hs, hlt, if_true] at h ⊢
          exact ih (attempt + 1) h
        · simp [loginGo, hs, hlt] at h

/-- C3 (amended).  `login` and `sendMessage` results are envelopes with a
boolean `success` field, and `success == true` implies the `error` field is
absent (null); `sendFriendRequest` results instead carry a `status` string,
and `status == "success"` implies `error == null`. -/
theorem success_implies_null_error :
    (∀ (env : Nat → AttemptEnv) (jitter tJitter : Nat → Nat)
        (shots : Nat → Option String) (maxRetries : Nat),
      (login env jitter tJitter shots maxRetries).result.success = true →
      (login env jitter tJitter shots maxRetries).result.error = none) ∧
    (∀ (env : MsgEnv) (recipient text : String),
      (sendMessage env recipient text).1.success = true →
      (sendMessage env recipient text).1.error = none) ∧
    (∀ (env : FriendEnv) (name : String),
      (sendFriendRequest env name).1.status = FrStatus.success →
      (sendFriendRequest env name).1.error = none) := by
  refine ⟨?_, ?_, ?_⟩
  · intro env jitter tJitter shots maxRetries h
    exact loginGo_success_no_error _ _ _ _ _ _ _ h
  · intro env recipient text
    rcases env with ⟨lf, ss, rn, ro, ia, gc, mi, sr⟩
    cases lf <;> cases ss <;> cases ia <;> cases gc <;> cases mi <;>
      simp_all [sendMessage, finishTyping]
  · intro env name
    rcases env with ⟨btn, bts, sr⟩
    cases btn <;> cases haf : alreadyFriendScan bts <;>
      simp_all [sendFriendRequest]

theorem success_implies_null_error_witness :
    (login (fun _ => attEnvSuccess) (fun _ => 0) (fun _ => 0) (fun _ => none) 2).result.error = none ∧
    (sendMessage msgEnvSuccess "Bob" "hi").1.error = none ∧
    (sendFriendRequest envFriendAlready "Alice").1.error = none :=
  ⟨success_implies_null_error.1 (fun _ => attEnvSuccess) (fun _ => 0) (fun _ => 0)
     (fun _ => none) 2 rfl,
   success_implies_null_error.2.1 msgEnvSuccess "Bob" "hi" rfl,
   success_implies_null_error.2.2 envFriendAlready "Alice" (by decide)⟩
